import Mathlib

/-!
Verification of the CHIP-8 interpreter in `src/main.rs`.

Modelling conventions (shallow embedding of the Rust source):
* every machine integer (`u8`, `u16`, `u32`, `usize`) is a `Nat`;
* a Rust fixed-size array (`[u8; 4096]`, `[u16; 16]`, ...) is a total map
  `Nat → Nat` accessed only through `arrGet n` / `arrSet n`, where `n` is the
  static length from the Rust type; the ROM byte vector (`Vec<u8>`) is a
  `List Nat` accessed through `vecGet`;
* a Rust panic is `none`: slice indexing out of bounds always panics, and the
  arithmetic operators `+`, `-`, `*` and a shift amount `>=` the bit width
  panic under Rust's overflow checks (the default debug profile), so each is
  modelled by a checked operation returning `Option Nat`.  A shift amount
  `<` the width silently discards the bits shifted out, which is not a panic;
* fallible functions return `Option Chip8`; `for` loops over `0..n` become
  structural recursion on the remaining iteration count.
-/

namespace Chip8Emu

/-- `START_ADDRESS` (line 19). -/
def START_ADDRESS : Nat := 0x200

/-- `FONTSET_START_ADDRESS` (line 20). -/
def FONTSET_START_ADDRESS : Nat := 0x50

/-- `VIDEO_WIDTH` (line 22). -/
def VIDEO_WIDTH : Nat := 64

/-- `VIDEO_HEIGHT` (line 23). -/
def VIDEO_HEIGHT : Nat := 32

/-- Rust fixed-size-array read `a[i]` on an array of static length `n`:
panics (`none`) when `i` is out of bounds. -/
def arrGet (n : Nat) (a : Nat → Nat) (i : Nat) : Option Nat :=
  if i < n then some (a i) else none

/-- Rust fixed-size-array write `a[i] = v` on an array of static length `n`:
panics (`none`) when `i` is out of bounds. -/
def arrSet (n : Nat) (a : Nat → Nat) (i v : Nat) : Option (Nat → Nat) :=
  if i < n then some (fun j => if j = i then v else a j) else none

/-- Rust `Vec<u8>` read `v[i]`: panics (`none`) when out of bounds. -/
def vecGet (a : List Nat) (i : Nat) : Option Nat :=
  if h : i < a.length then some (a.get ⟨i, h⟩) else none

/-- Rust `u8` addition under overflow checks: panics above 255. -/
def u8checkedAdd (a b : Nat) : Option Nat :=
  if a + b ≤ 255 then some (a + b) else none

/-- Rust `u8` subtraction under overflow checks: panics below 0. -/
def u8checkedSub (a b : Nat) : Option Nat :=
  if b ≤ a then some (a - b) else none

/-- Rust `u8` multiplication under overflow checks: panics above 255. -/
def u8checkedMul (a b : Nat) : Option Nat :=
  if a * b ≤ 255 then some (a * b) else none

/-- Rust `u8` left shift: a shift amount `>= 8` panics; otherwise bits
shifted out are silently discarded. -/
def u8checkedShl (a k : Nat) : Option Nat :=
  if k < 8 then some ((a <<< k) % 256) else none

/-- Rust `u16` addition under overflow checks: panics above 65535. -/
def u16checkedAdd (a b : Nat) : Option Nat :=
  if a + b ≤ 65535 then some (a + b) else none

/-- Rust `u16` subtraction under overflow checks: panics below 0. -/
def u16checkedSub (a b : Nat) : Option Nat :=
  if b ≤ a then some (a - b) else none

/-- The `Chip8` struct of `src/main.rs` (lines 46-58).  Field types in the
source: `registers: [u8; 16]`, `memory: [u8; 4096]`, `index: u16`, `pc: u16`,
`stack: [u16; 16]`, `sp: u8`, `delay_timer: u8`, `sound_timer: u8`,
`keypad: [u8; 16]`, `video: [u32; 64*32]`, `opcode: u16`. -/
structure Chip8 where
  registers : Nat → Nat
  memory : Nat → Nat
  index : Nat
  pc : Nat
  stack : Nat → Nat
  sp : Nat
  delay_timer : Nat
  sound_timer : Nat
  keypad : Nat → Nat
  video : Nat → Nat
  opcode : Nat

/-- `Chip8::new` (lines 62-76): all-zero state with `pc = 0x200`. -/
def Chip8.new : Chip8 where
  registers := fun _ => 0
  memory := fun _ => 0
  index := 0
  pc := START_ADDRESS
  stack := fun _ => 0
  sp := 0
  delay_timer := 0
  sound_timer := 0
  keypad := fun _ => 0
  video := fun _ => 0
  opcode := 0

/-- The copy loop of `load_rom` (lines 87-90): `memory[0x200 + i] = buffer[i]`
for `i in 0..buffer.len()`.  `i` is the loop index, the second argument the
number of remaining iterations. -/
def copyRom (buffer : List Nat) : Nat → Nat → (Nat → Nat) → Option (Nat → Nat)
  | _, 0, m => some m
  | i, k + 1, m => do
      let b ← vecGet buffer i
      let m2 ← arrSet 4096 m (START_ADDRESS + i) b
      copyRom buffer (i + 1) k m2

/-- `load_rom` (lines 81-91), with the file already read into `buffer`
(file I/O is host-side per the spec).  There is no size check: the loop
writes `memory[0x200 + i]` for every byte of the buffer. -/
def load_rom (buffer : List Nat) (s : Chip8) : Option Chip8 := do
  let m ← copyRom buffer 0 buffer.length s.memory
  pure { s with memory := m }

/-- `op_00e0` (lines 108-110), CLS: `video.fill(0)`. -/
def op_00e0 (s : Chip8) : Option Chip8 :=
  some { s with video := fun _ => 0 }

/-- `op_00ee` (lines 113-117), RET: `sp -= 1; let pc = self.pc; self.pc =
self.stack[pc]` — note the stack is indexed by the program counter. -/
def op_00ee (s : Chip8) : Option Chip8 := do
  let sp2 ← u8checkedSub s.sp 1
  let v ← arrGet 16 s.stack s.pc
  pure { s with sp := sp2, pc := v }

/-- `op_1nnn` (lines 120-123), JP addr. -/
def op_1nnn (s : Chip8) : Option Chip8 :=
  some { s with pc := s.opcode &&& 0x0FFF }

/-- `op_2nnn` (lines 126-132), CALL addr: `stack[sp] = pc; sp += 1; pc = nnn`. -/
def op_2nnn (s : Chip8) : Option Chip8 := do
  let st ← arrSet 16 s.stack s.sp s.pc
  let sp2 ← u8checkedAdd s.sp 1
  pure { s with stack := st, sp := sp2, pc := s.opcode &&& 0x0FFF }

/-- `op_3xkk` (lines 135-142), SE Vx, byte. -/
def op_3xkk (s : Chip8) : Option Chip8 := do
  let x := (s.opcode &&& 0x0F00) >>> 8
  let byte := s.opcode &&& 0x00FF
  let vx ← arrGet 16 s.registers x
  if vx = byte then do
    let pc2 ← u16checkedAdd s.pc 2
    pure { s with pc := pc2 }
  else
    pure s

/-- `op_4xkk` (lines 145-152), SNE Vx, byte. -/
def op_4xkk (s : Chip8) : Option Chip8 := do
  let x := (s.opcode &&& 0x0F00) >>> 8
  let byte := s.opcode &&& 0x00FF
  let vx ← arrGet 16 s.registers x
  if vx ≠ byte then do
    let pc2 ← u16checkedAdd s.pc 2
    pure { s with pc := pc2 }
  else
    pure s

/-- `op_5xy0` (lines 155-163), SE Vx, Vy. -/
def op_5xy0 (s : Chip8) : Option Chip8 := do
  let x := (s.opcode &&& 0x0F00) >>> 8
  let y := (s.opcode &&& 0x00F0) >>> 4
  let vx ← arrGet 16 s.registers x
  let vy ← arrGet 16 s.registers y
  if vx = vy then do
    let pc2 ← u16checkedAdd s.pc 2
    pure { s with pc := pc2 }
  else
    pure s

/-- `op_6xkk` (lines 166-173), LD Vx, byte. -/
def op_6xkk (s : Chip8) : Option Chip8 := do
  let x := (s.opcode &&& 0x0F00) >>> 8
  let byte := s.opcode &&& 0x00FF
  let r ← arrSet 16 s.registers x byte
  pure { s with registers := r }

/-- `op_7xkk` (lines 176-183), ADD Vx, byte: `registers[x] += byte` with the
plain (checked) `+=` of the source. -/
def op_7xkk (s : Chip8) : Option Chip8 := do
  let x := (s.opcode &&& 0x0F00) >>> 8
  let byte := s.opcode &&& 0x00FF
  let vx ← arrGet 16 s.registers x
  let sum ← u8checkedAdd vx byte
  let r ← arrSet 16 s.registers x sum
  pure { s with registers := r }

/-- `op_8xy0` (lines 186-194), LD Vx, Vy. -/
def op_8xy0 (s : Chip8) : Option Chip8 := do
  let x := (s.opcode &&& 0x0F00) >>> 8
  let y := (s.opcode &&& 0x00F0) >>> 4
  let vy ← arrGet 16 s.registers y
  let r ← arrSet 16 s.registers x vy
  pure { s with registers := r }

/-- `op_8xy1` (lines 197-205), OR Vx, Vy: `registers[x] |= registers[y]`. -/
def op_8xy1 (s : Chip8) : Option Chip8 := do
  let x := (s.opcode &&& 0x0F00) >>> 8
  let y := (s.opcode &&& 0x00F0) >>> 4
  let vx ← arrGet 16 s.registers x
  let vy ← arrGet 16 s.registers y
  let r ← arrSet 16 s.registers x (vx ||| vy)
  pure { s with registers := r }

/-- `op_8xy2` (lines 208-216), AND Vx, Vy: `registers[x] &= registers[y]`. -/
def op_8xy2 (s : Chip8) : Option Chip8 := do
  let x := (s.opcode &&& 0x0F00) >>> 8
  let y := (s.opcode &&& 0x00F0) >>> 4
  let vx ← arrGet 16 s.registers x
  let vy ← arrGet 16 s.registers y
  let r ← arrSet 16 s.registers x (vx &&& vy)
  pure { s with registers := r }

/-- `op_8xy3` (lines 219-227), XOR Vx, Vy: `registers[x] ^= registers[y]`. -/
def op_8xy3 (s : Chip8) : Option Chip8 := do
  let x := (s.opcode &&& 0x0F00) >>> 8
  let y := (s.opcode &&& 0x00F0) >>> 4
  let vx ← arrGet 16 s.registers x
  let vy ← arrGet 16 s.registers y
  let r ← arrSet 16 s.registers x (vx ^^^ vy)
  pure { s with registers := r }

/-- `op_8xy4` (lines 230-245), ADD Vx, Vy: the sum is computed with the `u8`
`+` of the source (`registers[x] + registers[y]`) and only afterwards cast
`as u16`, then `VF = if sum > 255 {1} else {0}` and `registers[x] = sum & 0xFF`. -/
def op_8xy4 (s : Chip8) : Option Chip8 := do
  let x := (s.opcode &&& 0x0F00) >>> 8
  let y := (s.opcode &&& 0x00F0) >>> 4
  let vx ← arrGet 16 s.registers x
  let vy ← arrGet 16 s.registers y
  let sum ← u8checkedAdd vx vy
  let r1 ← arrSet 16 s.registers 0xF (if sum > 255 then 1 else 0)
  let r2 ← arrSet 16 r1 x (sum &&& 0xFF)
  pure { s with registers := r2 }

/-- `op_8xy5` (lines 248-261), SUB Vx, Vy: VF is written first, then
`registers[x] -= registers[y]` re-reads both registers (checked `-=`). -/
def op_8xy5 (s : Chip8) : Option Chip8 := do
  let x := (s.opcode &&& 0x0F00) >>> 8
  let y := (s.opcode &&& 0x00F0) >>> 4
  let vx ← arrGet 16 s.registers x
  let vy ← arrGet 16 s.registers y
  let r1 ← arrSet 16 s.registers 0xF (if vx > vy then 1 else 0)
  let vx2 ← arrGet 16 r1 x
  let vy2 ← arrGet 16 r1 y
  let d ← u8checkedSub vx2 vy2
  let r2 ← arrSet 16 r1 x d
  pure { s with registers := r2 }

/-- `op_8xy6` (lines 264-272), SHR Vx: `VF = Vx & 1`, then `registers[x] >>= 1`. -/
def op_8xy6 (s : Chip8) : Option Chip8 := do
  let x := (s.opcode &&& 0x0F00) >>> 8
  let vx ← arrGet 16 s.registers x
  let r1 ← arrSet 16 s.registers 0xF (vx &&& 0x1)
  let vx2 ← arrGet 16 r1 x
  let r2 ← arrSet 16 r1 x (vx2 >>> 1)
  pure { s with registers := r2 }

/-- `op_8xy7` (lines 275-288), SUBN Vx, Vy: VF first, then
`registers[x] = registers[y] - registers[x]` (checked `-`). -/
def op_8xy7 (s : Chip8) : Option Chip8 := do
  let x := (s.opcode &&& 0x0F00) >>> 8
  let y := (s.opcode &&& 0x00F0) >>> 4
  let vx ← arrGet 16 s.registers x
  let vy ← arrGet 16 s.registers y
  let r1 ← arrSet 16 s.registers 0xF (if vy > vx then 1 else 0)
  let vx2 ← arrGet 16 r1 x
  let vy2 ← arrGet 16 r1 y
  let d ← u8checkedSub vy2 vx2
  let r2 ← arrSet 16 r1 x d
  pure { s with registers := r2 }

/-- `op_8xye` (lines 291-298), SHL Vx: `VF = (Vx & 0x80) >> 7`, then
`registers[x] <<= 1` (shift amount 1 < 8, high bit silently discarded). -/
def op_8xye (s : Chip8) : Option Chip8 := do
  let x := (s.opcode &&& 0x0F00) >>> 8
  let vx ← arrGet 16 s.registers x
  let r1 ← arrSet 16 s.registers 0xF ((vx &&& 0x80) >>> 7)
  let vx2 ← arrGet 16 r1 x
  let sh ← u8checkedShl vx2 1
  let r2 ← arrSet 16 r1 x sh
  pure { s with registers := r2 }

/-- `op_9xy0` (lines 301-311), SNE Vx, Vy. -/
def op_9xy0 (s : Chip8) : Option Chip8 := do
  let x := (s.opcode &&& 0x0F00) >>> 8
  let y := (s.opcode &&& 0x00F0) >>> 4
  let vx ← arrGet 16 s.registers x
  let vy ← arrGet 16 s.registers y
  if vx ≠ vy then do
    let pc2 ← u16checkedAdd s.pc 2
    pure { s with pc := pc2 }
  else
    pure s

/-- `op_annn` (lines 314-318), LD I, addr. -/
def op_annn (s : Chip8) : Option Chip8 :=
  some { s with index := s.opcode &&& 0x0FFF }

/-- `op_bnnnn` (lines 321-325), JP V0, addr: `pc = (V0 as u16) + nnn`. -/
def op_bnnnn (s : Chip8) : Option Chip8 := do
  let v0 ← arrGet 16 s.registers 0
  let pc2 ← u16checkedAdd v0 (s.opcode &&& 0x0FFF)
  pure { s with pc := pc2 }

/-- `op_cxkk` (lines 328-337), RND Vx, byte: the drawn `u8` of
`rng.gen::<u8>()` is passed in as `randByte`. -/
def op_cxkk (randByte : Nat) (s : Chip8) : Option Chip8 := do
  let x := (s.opcode &&& 0x0F00) >>> 8
  let byte := s.opcode &&& 0x00FF
  let r ← arrSet 16 s.registers x (randByte &&& byte)
  pure { s with registers := r }

/-- Inner column loop of `op_dxyn` (lines 358-369): reads the screen pixel,
sets `VF = 1` on collision.  The `screenPixel ^= 0xFFFFFFFF` of line 367
updates only the local copy bound by `let mut screenPixel = ...` on line 360;
`self.video` is never written, so the loop carries no framebuffer update.
Arguments: current column, remaining iterations, state. -/
def drwCols (xPos yPos row spriteByte : Nat) : Nat → Nat → Chip8 → Option Chip8
  | _, 0, s => some s
  | col, k + 1, s => do
      let spritePixel := spriteByte &&& (0x80 >>> col)
      let screenPixel ← arrGet (VIDEO_WIDTH * VIDEO_HEIGHT) s.video
        ((yPos + row) * VIDEO_WIDTH + (xPos + col))
      if spritePixel ≠ 0 then
        if screenPixel = 0xFFFFFFFF then do
          let r ← arrSet 16 s.registers 0xF 1
          drwCols xPos yPos row spriteByte (col + 1) k { s with registers := r }
        else
          drwCols xPos yPos row spriteByte (col + 1) k s
      else
        drwCols xPos yPos row spriteByte (col + 1) k s

/-- Row loop of `op_dxyn` (lines 355-370): fetches the sprite byte at
`index + row` and runs the 8-column loop. -/
def drwRows (xPos yPos : Nat) : Nat → Nat → Chip8 → Option Chip8
  | _, 0, s => some s
  | row, k + 1, s => do
      let addr ← u16checkedAdd s.index row
      let spriteByte ← arrGet 4096 s.memory addr
      let s2 ← drwCols xPos yPos row spriteByte 0 8 s
      drwRows xPos yPos (row + 1) k s2

/-- `op_dxyn` (lines 340-371), DRW Vx, Vy, nibble: `xPos = Vx % 64`,
`yPos = Vy % 32`, `VF = 0`, then the row/column loops. -/
def op_dxyn (s : Chip8) : Option Chip8 := do
  let x := (s.opcode &&& 0x0F00) >>> 8
  let y := (s.opcode &&& 0x00F0) >>> 4
  let height := s.opcode &&& 0x000F
  let vx ← arrGet 16 s.registers x
  let vy ← arrGet 16 s.registers y
  let xPos := vx % VIDEO_WIDTH
  let yPos := vy % VIDEO_HEIGHT
  let r ← arrSet 16 s.registers 0xF 0
  drwRows xPos yPos 0 height { s with registers := r }

/-- `op_ex9e` (lines 374-385), SKP Vx: the source wraps the key state in
`Some(self.keypad[key])` and tests `is_some()`. -/
def op_ex9e (s : Chip8) : Option Chip8 := do
  let x := (s.opcode &&& 0x0F00) >>> 8
  let key ← arrGet 16 s.registers x
  let kv ← arrGet 16 s.keypad key
  let keypadVal : Option Nat := some kv
  if keypadVal.isSome then do
    let pc2 ← u16checkedAdd s.pc 2
    pure { s with pc := pc2 }
  else
    pure s

/-- `op_exa1` (lines 388-399), SKNP Vx: wraps the key state in
`Some(self.keypad[key])` and tests `is_none()`. -/
def op_exa1 (s : Chip8) : Option Chip8 := do
  let x := (s.opcode &&& 0x0F00) >>> 8
  let key ← arrGet 16 s.registers x
  let kv ← arrGet 16 s.keypad key
  let keypadVal : Option Nat := some kv
  if keypadVal.isNone then do
    let pc2 ← u16checkedAdd s.pc 2
    pure { s with pc := pc2 }
  else
    pure s

/-- `op_fx07` (lines 402-407), LD Vx, DT. -/
def op_fx07 (s : Chip8) : Option Chip8 := do
  let x := (s.opcode &&& 0x0F00) >>> 8
  let r ← arrSet 16 s.registers x s.delay_timer
  pure { s with registers := r }

/-- The `is_some()` selection chain of `op_fx0a` (lines 420-454): returns the
index of the first entry of `keypad: [Option<u8>; 16]` that `is_some()`, or
`none` when every entry is `None` (the final `else` of the source).  Each
`is_some()` branch of the source writes its branch index into `registers[x]`,
so the selected index is factored out here and written back in `op_fx0a`. -/
def fx0aFirstSome (kp : List (Option Nat)) : Option Nat :=
  if (kp.getD 0 none).isSome then some 0
  else if (kp.getD 1 none).isSome then some 1
  else if (kp.getD 2 none).isSome then some 2
  else if (kp.getD 3 none).isSome then some 3
  else if (kp.getD 4 none).isSome then some 4
  else if (kp.getD 5 none).isSome then some 5
  else if (kp.getD 6 none).isSome then some 6
  else if (kp.getD 7 none).isSome then some 7
  else if (kp.getD 8 none).isSome then some 8
  else if (kp.getD 9 none).isSome then some 9
  else if (kp.getD 10 none).isSome then some 10
  else if (kp.getD 11 none).isSome then some 11
  else if (kp.getD 12 none).isSome then some 12
  else if (kp.getD 13 none).isSome then some 13
  else if (kp.getD 14 none).isSome then some 14
  else if (kp.getD 15 none).isSome then some 15
  else none

/-- `op_fx0a` (lines 410-455), LD Vx, K: the source builds
`keypad: [Option<u8>; 16]` with `keypad[i] = Some(self.keypad[i])` for
`i in 0..16` (panicking if an index were out of bounds), then walks the
`is_some()` chain, storing the matching branch index into `registers[x]`
and falling through to `pc -= 2` only when every entry is `None`. -/
def op_fx0a (s : Chip8) : Option Chip8 := do
  let x := (s.opcode &&& 0x0F00) >>> 8
  let kp ← (List.range 16).mapM (fun i => (arrGet 16 s.keypad i).map some)
  match fx0aFirstSome kp with
  | some v => do
      let r ← arrSet 16 s.registers x v
      pure { s with registers := r }
  | none => do
      let pc2 ← u16checkedSub s.pc 2
      pure { s with pc := pc2 }

/-- `op_fx15` (lines 458-463), LD DT, Vx. -/
def op_fx15 (s : Chip8) : Option Chip8 := do
  let x := (s.opcode &&& 0x0F00) >>> 8
  let vx ← arrGet 16 s.registers x
  pure { s with delay_timer := vx }

/-- `op_fx18` (lines 466-471), LD ST, Vx. -/
def op_fx18 (s : Chip8) : Option Chip8 := do
  let x := (s.opcode &&& 0x0F00) >>> 8
  let vx ← arrGet 16 s.registers x
  pure { s with sound_timer := vx }

/-- `op_fx1e` (lines 474-479), ADD I, Vx: `index += Vx as u16` (checked). -/
def op_fx1e (s : Chip8) : Option Chip8 := do
  let x := (s.opcode &&& 0x0F00) >>> 8
  let vx ← arrGet 16 s.registers x
  let i2 ← u16checkedAdd s.index vx
  pure { s with index := i2 }

/-- `op_fx29` (lines 482-488), LD F, Vx: `index = (0x50u8 + 5 * digit) as u16`;
both the multiplication and the addition are `u8` (checked). -/
def op_fx29 (s : Chip8) : Option Chip8 := do
  let x := (s.opcode &&& 0x0F00) >>> 8
  let digit ← arrGet 16 s.registers x
  let m ← u8checkedMul 5 digit
  let a ← u8checkedAdd FONTSET_START_ADDRESS m
  pure { s with index := a }

/-- `op_fx33` (lines 491-506), LD B, Vx: BCD of Vx into
`memory[index]`, `memory[index+1]`, `memory[index+2]`. -/
def op_fx33 (s : Chip8) : Option Chip8 := do
  let x := (s.opcode &&& 0x0F00) >>> 8
  let value ← arrGet 16 s.registers x
  let a2 ← u16checkedAdd s.index 2
  let m1 ← arrSet 4096 s.memory a2 (value % 10)
  let value2 := value / 10
  let a1 ← u16checkedAdd s.index 1
  let m2 ← arrSet 4096 m1 a1 (value2 % 10)
  let value3 := value2 / 10
  let m3 ← arrSet 4096 m2 s.index (value3 % 10)
  pure { s with memory := m3 }

/-- Store loop of `op_fx55` (lines 512-514): `for i in 0..Vx` — the bound is
exclusive.  Arguments: current `i`, remaining iterations, state. -/
def storeRegs : Nat → Nat → Chip8 → Option Chip8
  | _, 0, s => some s
  | i, k + 1, s => do
      let v ← arrGet 16 s.registers i
      let a ← u16checkedAdd s.index i
      let m ← arrSet 4096 s.memory a v
      storeRegs (i + 1) k { s with memory := m }

/-- `op_fx55` (lines 509-515), LD [I], Vx: runs the store loop `Vx` times
(exclusive upper bound `0..Vx`). -/
def op_fx55 (s : Chip8) : Option Chip8 :=
  storeRegs 0 ((s.opcode &&& 0x0F00) >>> 8) s

/-- Load loop of `op_fx65` (lines 521-523): `for i in 0..Vx` — exclusive. -/
def loadRegs : Nat → Nat → Chip8 → Option Chip8
  | _, 0, s => some s
  | i, k + 1, s => do
      let a ← u16checkedAdd s.index i
      let v ← arrGet 4096 s.memory a
      let r ← arrSet 16 s.registers i v
      loadRegs (i + 1) k { s with registers := r }

/-- `op_fx65` (lines 518-524), LD Vx, [I]: runs the load loop `Vx` times
(exclusive upper bound `0..Vx`). -/
def op_fx65 (s : Chip8) : Option Chip8 :=
  loadRegs 0 ((s.opcode &&& 0x0F00) >>> 8) s

/-- `op_null` (lines 527-529): does nothing. -/
def op_null (s : Chip8) : Option Chip8 :=
  some s

/-- `cycle` (lines 533-609).  Fetch: `(memory[pc] << 8) | memory[pc+1]` where
`memory[pc]` is a `u8`, so the `<< 8` shifts a `u8` by its full width (a
panic under Rust's checked shift semantics); the result is bound to a local
`opcode` — `self.opcode` is never assigned.  Then `pc += 2`, a match of the
whole local `opcode` value (not its top nibble) against `0x0 ..= 0xF`, and
the timer decrements.  `randByte` stands for the `rng.gen::<u8>()` draw
inside `op_cxkk`. -/
def cycle (randByte : Nat) (s : Chip8) : Option Chip8 := do
  let hi ← arrGet 4096 s.memory s.pc
  let hiSh ← u8checkedShl hi 8
  let pcPlus ← u16checkedAdd s.pc 1
  let lo ← arrGet 4096 s.memory pcPlus
  let opcode := hiSh ||| lo
  let pc2 ← u16checkedAdd s.pc 2
  let s0 := { s with pc := pc2 }
  let s1 ← (match opcode with
    | 0x0 =>
      (match opcode &&& 0x000F with
        | 0x0 => op_00e0 s0
        | 0xE => op_00ee s0
        | _ => op_null s0)
    | 0x1 => op_1nnn s0
    | 0x2 => op_2nnn s0
    | 0x3 => op_3xkk s0
    | 0x4 => op_4xkk s0
    | 0x5 => op_5xy0 s0
    | 0x6 => op_6xkk s0
    | 0x7 => op_7xkk s0
    | 0x8 =>
      (match opcode &&& 0x000F with
        | 0x0 => op_8xy0 s0
        | 0x1 => op_8xy1 s0
        | 0x2 => op_8xy2 s0
        | 0x3 => op_8xy3 s0
        | 0x4 => op_8xy4 s0
        | 0x5 => op_8xy5 s0
        | 0x6 => op_8xy6 s0
        | 0x7 => op_8xy7 s0
        | 0xE => op_8xye s0
        | _ => op_null s0)
    | 0x9 => op_9xy0 s0
    | 0xA => op_annn s0
    | 0xB => op_bnnnn s0
    | 0xC => op_cxkk randByte s0
    | 0xD => op_dxyn s0
    | 0xE =>
      (match opcode &&& 0x000F with
        | 0x1 => op_exa1 s0
        | 0xE => op_ex9e s0
        | _ => op_null s0)
    | 0xF =>
      (match opcode &&& 0x00FF with
        | 0x07 => op_fx07 s0
        | 0x0A => op_fx0a s0
        | 0x15 => op_fx15 s0
        | 0x18 => op_fx18 s0
        | 0x1E => op_fx1e s0
        | 0x29 => op_fx29 s0
        | 0x33 => op_fx33 s0
        | 0x55 => op_fx55 s0
        | 0x65 => op_fx65 s0
        | _ => op_null s0)
    | _ => op_null s0)
  let s2 := if s1.delay_timer > 0 then { s1 with delay_timer := s1.delay_timer - 1 } else s1
  let s3 := if s2.sound_timer > 0 then { s2 with sound_timer := s2.sound_timer - 1 } else s2
  pure s3

/-! ## Concrete machine states used in the theorems below -/

/-- All-off machine about to execute `DRW V0,V1,1` (`opcode 0xD011`) with an
all-ones 8×1 sprite at `memory[index] = memory[0]`. -/
def drwState : Chip8 :=
  { Chip8.new with
    opcode := 0xD011
    memory := fun i => if i = 0 then 0xFF else 0 }

/-- Machine about to execute RET with one return address on the stack:
`sp = 1`, `stack[0] = 0x300`, `pc = 0x202` (already advanced past the RET). -/
def retState : Chip8 :=
  { Chip8.new with
    sp := 1
    pc := 0x202
    stack := fun i => if i = 0 then 0x300 else 0
    opcode := 0x00EE }

/-- Machine with no key held, about to execute `SKP V0` (`0xE09E`). -/
def skpState : Chip8 := { Chip8.new with pc := 0x202, opcode := 0xE09E }

/-- Machine with no key held, about to execute `SKNP V0` (`0xE0A1`). -/
def sknpState : Chip8 := { Chip8.new with pc := 0x202, opcode := 0xE0A1 }

/-- Machine with no key held and `V0 = 5`, about to execute `LD V0,K`
(`0xF00A`). -/
def keyWaitState : Chip8 :=
  { Chip8.new with
    pc := 0x202
    opcode := 0xF00A
    registers := fun i => if i = 0 then 5 else 0 }

/-- Machine with `V0 = 200`, `V1 = 100`, about to execute `ADD V0,V1`
(`0x8014`). -/
def addRegState : Chip8 :=
  { Chip8.new with
    opcode := 0x8014
    registers := fun i => if i = 0 then 200 else if i = 1 then 100 else 0 }

/-- Machine with `V0 = 255`, about to execute `ADD V0,1` (`0x7001`). -/
def addImmState : Chip8 :=
  { Chip8.new with
    opcode := 0x7001
    registers := fun i => if i = 0 then 255 else 0 }

/-- Machine with `V0..V3 = 10,20,30,7` and `index = 0x400`, about to execute
`LD [I],V3` (`0xF355`). -/
def regDumpState : Chip8 :=
  { Chip8.new with
    opcode := 0xF355
    index := 0x400
    registers := fun i =>
      if i = 0 then 10 else if i = 1 then 20 else if i = 2 then 30 else
      if i = 3 then 7 else 0 }

/-- Machine with a full call stack (`sp = 16`), about to execute `CALL 0x300`
(`0x2300`). -/
def callOverflowState : Chip8 := { Chip8.new with sp := 16, opcode := 0x2300 }

/-! ## Claim theorems -/

/-- C1: `op_dxyn` never writes the framebuffer.  Executing `DRW V0,V1,1` with
an all-ones 8×1 sprite over an all-off region returns the machine with the
`video` field untouched (every pixel still off) and `VF = 0`; the only change
is the initial `VF = 0` write.  This contradicts the claim that the 8 covered
cells end at their old value XOR the sprite bit (here: all on). -/
theorem drw_leaves_framebuffer_unchanged :
    op_dxyn drwState =
      some { drwState with
              registers := fun j => if j = 0xF then 0 else drwState.registers j } := rfl

/-- C2: `cycle` can never perform the claimed fetch-dispatch.  The fetch
expression `(memory[pc] << 8) | memory[pc+1]` shifts the `u8` byte
`memory[pc]` by its full width, which is an arithmetic fault on every input,
so `cycle` panics on every machine state (and, were the shift masked, the
match would compare the whole 8-bit value against `0x0 ..= 0xF` instead of
dispatching on `word >> 12`). -/
theorem cycle_always_panics (randByte : Nat) (s : Chip8) :
    cycle randByte s = none := by
  unfold cycle
  cases arrGet 4096 s.memory s.pc <;> rfl

/-- C3: RET indexes the stack by the program counter, not the stack pointer.
On a machine with `sp = 1`, `stack[0] = 0x300` and `pc = 0x202`, `op_00ee`
evaluates `stack[pc] = stack[0x202]`, an out-of-bounds access into the
16-entry stack, and panics instead of setting `pc = stack[sp-1] = 0x300`. -/
theorem ret_panics_indexing_stack_by_pc : op_00ee retState = none := rfl

/-- C4: the key state is wrapped in `Some(...)`, so `is_some()` is constantly
true and `is_none()` constantly false.  With no key held, SKP V0 still skips
(`pc` goes from 0x202 to 0x204) and SKNP V0 does not skip (`pc` stays at
0x202) — the opposite of the claimed behaviour for an unpressed key. -/
theorem skp_sknp_ignore_key_state :
    op_ex9e skpState = some { skpState with pc := 0x204 } ∧
    op_exa1 sknpState = some sknpState := ⟨rfl, rfl⟩

/-- C5: the key-wait opcode wraps every keypad entry in `Some(...)`, so the
first branch `keypad[0].is_some()` is always taken.  With no key held and
`V0 = 5`, `op_fx0a` overwrites `V0` with 0 and leaves `pc` at 0x202 instead
of decrementing `pc` back to 0x200 and changing no register. -/
theorem key_wait_never_waits :
    op_fx0a keyWaitState =
      some { keyWaitState with
              registers := fun j => if j = 0 then 0 else keyWaitState.registers j } := rfl

/-- C6: `op_8xy4` computes `registers[x] + registers[y]` as a `u8` addition
and only casts the result `as u16` afterwards, so with `V0 = 200`,
`V1 = 100` the addition itself faults (and under a masked build the
truncated sum could never exceed 255, leaving VF at 0); the claimed
`VF = 1`, `V0 = 44` outcome is unreachable. -/
theorem add_vx_vy_faults_on_carry : op_8xy4 addRegState = none := rfl

/-- C7: `op_7xkk` uses the plain checked `+=` on a `u8`, so `ADD V0,1` with
`V0 = 255` is an arithmetic fault rather than the claimed silent wraparound
to `(255 + 1) mod 256 = 0`. -/
theorem add_vx_kk_faults_on_overflow : op_7xkk addImmState = none := rfl

/-- C8: the transfer loops run `for i in 0..Vx`, an exclusive bound.  With
`x = 3` and `V0..V3 = 10,20,30,7`, `LD [I],V3` writes only three bytes
(`memory[0x403]` stays 0, not 7), and the store/load round trip onto zeroed
registers leaves `V3 = 0` instead of reproducing the original 7. -/
theorem reg_dump_excludes_Vx :
    regDumpState.registers 3 = 7 ∧
    (op_fx55 regDumpState).map
      (fun t => (t.memory 0x400, t.memory 0x401, t.memory 0x402, t.memory 0x403)) =
      some (10, 20, 30, 0) ∧
    ((op_fx55 regDumpState).bind (fun t =>
      (op_fx65 { t with registers := fun _ => 0, opcode := 0xF365 }).map
        (fun t2 => t2.registers 3))) = some 0 := ⟨rfl, rfl, rfl⟩

/-- Reading a replicated ROM buffer inside its bounds. -/
theorem vecGet_replicate (n a i : Nat) (h : i < n) :
    vecGet (List.replicate n a) i = some a := by
  have hl : i < (List.replicate n a).length := by
    rw [List.length_replicate]; exact h
  unfold vecGet
  rw [dif_pos hl]
  exact congrArg some (by simp [List.get_eq_getElem, List.getElem_replicate])

/-- The ROM copy loop succeeds as long as every read stays inside the buffer
and every write stays inside the 4096-byte memory. -/
theorem copyRom_isSome (b : List Nat) :
    ∀ (k i : Nat) (m : Nat → Nat),
      i + k ≤ b.length → START_ADDRESS + i + k ≤ 4096 →
      (copyRom b i k m).isSome := by
  intro k
  induction k with
  | zero => intro i m _ _; rfl
  | succ k ih =>
      intro i m h1 h2
      rw [copyRom]
      have hb : i < b.length := by omega
      have hv : vecGet b i = some (b.get ⟨i, hb⟩) := by
        simp [vecGet, hb]
      have hw : START_ADDRESS + i < 4096 := by
        simp only [START_ADDRESS] at h2 ⊢; omega
      have hs : arrSet 4096 m (START_ADDRESS + i) (b.get ⟨i, hb⟩) =
          some (fun j => if j = START_ADDRESS + i then b.get ⟨i, hb⟩ else m j) := by
        simp [arrSet, hw]
      rw [hv]
      simp only [Option.bind_eq_bind, Option.some_bind, hs]
      exact ih (i + 1) _ (by omega) (by omega)

/-- Peeling the last iteration off the ROM copy loop. -/
theorem copyRom_succ_last (b : List Nat) (k : Nat) :
    ∀ (i : Nat) (m : Nat → Nat),
      copyRom b i (k + 1) m =
        (copyRom b i k m).bind (fun m2 =>
          (vecGet b (i + k)).bind (fun v =>
            arrSet 4096 m2 (START_ADDRESS + (i + k)) v)) := by
  induction k with
  | zero =>
      intro i m
      rw [copyRom]
      simp only [Nat.add_zero, copyRom, Option.bind_eq_bind, Option.some_bind]
      cases vecGet b i with
      | none => simp only [Option.none_bind]
      | some v =>
          simp only [Option.some_bind]
          cases arrSet 4096 m (START_ADDRESS + i) v with
          | none => simp only [Option.none_bind]
          | some m2 => simp only [Option.some_bind, copyRom]
  | succ k ih =>
      intro i m
      rw [copyRom]
      conv_rhs => rw [copyRom]
      simp only [Option.bind_eq_bind]
      cases vecGet b i with
      | none => simp only [Option.none_bind]
      | some v =>
          simp only [Option.some_bind]
          cases arrSet 4096 m (START_ADDRESS + i) v with
          | none => simp only [Option.none_bind]
          | some m2 =>
              simp only [Option.some_bind]
              rw [ih (i + 1) m2, show i + (k + 1) = (i + 1) + k by omega]

/-- C9: none of the three fatal conditions is surfaced as a structured
error: a 3584-byte ROM loads successfully, but a 3585-byte ROM makes
`load_rom` panic mid-copy on the out-of-bounds write `memory[0x1000]` (there
is no `RomTooLarge` value anywhere to return), `CALL` with `sp = 16` panics
indexing `stack[16]`, and `RET` with `sp = 0` panics on the `u8` underflow
`sp -= 1`. -/
theorem fatal_conditions_panic_unstructured :
    (load_rom (List.replicate 3584 7) Chip8.new).isSome = true ∧
    load_rom (List.replicate 3585 7) Chip8.new = none ∧
    op_2nnn callOverflowState = none ∧
    op_00ee Chip8.new = none := by
  refine ⟨?_, ?_, rfl, rfl⟩
  · unfold load_rom
    have h := copyRom_isSome (List.replicate 3584 7) 3584 0 Chip8.new.memory
      (by rw [List.length_replicate])
      (by simp only [START_ADDRESS]; omega)
    obtain ⟨m, hm⟩ := Option.isSome_iff_exists.mp h
    rw [List.length_replicate, hm]
    rfl
  · unfold load_rom
    rw [List.length_replicate,
        show (3585 : Nat) = 3584 + 1 from rfl,
        copyRom_succ_last (List.replicate 3585 7) 3584 0 Chip8.new.memory]
    obtain ⟨m, hm⟩ := Option.isSome_iff_exists.mp
      (copyRom_isSome (List.replicate 3585 7) 3584 0 Chip8.new.memory
        (by rw [List.length_replicate]; omega)
        (by simp only [START_ADDRESS]; omega))
    have hv : vecGet (List.replicate 3585 7) (0 + 3584) = some 7 :=
      vecGet_replicate 3585 7 (0 + 3584) (by omega)
    rw [hm, hv]
    simp [arrSet, START_ADDRESS]

/-- The opcode field `x = (word & 0x0F00) >> 8` is always a valid register
index. -/
theorem xNibble_lt (n : Nat) : (n &&& 0x0F00) >>> 8 < 16 := by
  have h1 : n &&& 0x0F00 ≤ 0x0F00 := Nat.and_le_right
  have h2 : (n &&& 0x0F00) >>> 8 ≤ 0x0F00 >>> 8 := by
    simp only [Nat.shiftRight_eq_div_pow]
    exact Nat.div_le_div_right h1
  omega

/-- The opcode field `y = (word & 0x00F0) >> 4` is always a valid register
index. -/
theorem yNibble_lt (n : Nat) : (n &&& 0x00F0) >>> 4 < 16 := by
  have h1 : n &&& 0x00F0 ≤ 0x00F0 := Nat.and_le_right
  have h2 : (n &&& 0x00F0) >>> 4 ≤ 0x00F0 >>> 4 := by
    simp only [Nat.shiftRight_eq_div_pow]
    exact Nat.div_le_div_right h1
  omega

/-- C10: each of OR/AND/XOR Vx,Vy succeeds on every machine state and
modifies only `registers[x]` (to `Vx|Vy`, `Vx&Vy`, `Vx^Vy`); every other
register and the memory, stack, sp, pc, index, delay_timer, sound_timer,
keypad and video fields are unchanged. -/
theorem bitwise_ops_modify_only_Vx (s : Chip8) :
    (∃ t, op_8xy1 s = some t ∧
      t.registers ((s.opcode &&& 0x0F00) >>> 8) =
        (s.registers ((s.opcode &&& 0x0F00) >>> 8) |||
         s.registers ((s.opcode &&& 0x00F0) >>> 4)) ∧
      (∀ j, j ≠ (s.opcode &&& 0x0F00) >>> 8 → t.registers j = s.registers j) ∧
      t.memory = s.memory ∧ t.stack = s.stack ∧ t.sp = s.sp ∧ t.pc = s.pc ∧
      t.index = s.index ∧ t.delay_timer = s.delay_timer ∧
      t.sound_timer = s.sound_timer ∧ t.keypad = s.keypad ∧ t.video = s.video) ∧
    (∃ t, op_8xy2 s = some t ∧
      t.registers ((s.opcode &&& 0x0F00) >>> 8) =
        (s.registers ((s.opcode &&& 0x0F00) >>> 8) &&&
         s.registers ((s.opcode &&& 0x00F0) >>> 4)) ∧
      (∀ j, j ≠ (s.opcode &&& 0x0F00) >>> 8 → t.registers j = s.registers j) ∧
      t.memory = s.memory ∧ t.stack = s.stack ∧ t.sp = s.sp ∧ t.pc = s.pc ∧
      t.index = s.index ∧ t.delay_timer = s.delay_timer ∧
      t.sound_timer = s.sound_timer ∧ t.keypad = s.keypad ∧ t.video = s.video) ∧
    (∃ t, op_8xy3 s = some t ∧
      t.registers ((s.opcode &&& 0x0F00) >>> 8) =
        (s.registers ((s.opcode &&& 0x0F00) >>> 8) ^^^
         s.registers ((s.opcode &&& 0x00F0) >>> 4)) ∧
      (∀ j, j ≠ (s.opcode &&& 0x0F00) >>> 8 → t.registers j = s.registers j) ∧
      t.memory = s.memory ∧ t.stack = s.stack ∧ t.sp = s.sp ∧ t.pc = s.pc ∧
      t.index = s.index ∧ t.delay_timer = s.delay_timer ∧
      t.sound_timer = s.sound_timer ∧ t.keypad = s.keypad ∧ t.video = s.video) := by
  have hx : (s.opcode &&& 0x0F00) >>> 8 < 16 := xNibble_lt s.opcode
  have hy : (s.opcode &&& 0x00F0) >>> 4 < 16 := yNibble_lt s.opcode
  refine
    ⟨⟨{ s with registers := fun j =>
          if j = (s.opcode &&& 0x0F00) >>> 8 then
            s.registers ((s.opcode &&& 0x0F00) >>> 8) |||
              s.registers ((s.opcode &&& 0x00F0) >>> 4)
          else s.registers j },
       ?_, ?_, ?_, rfl, rfl, rfl, rfl, rfl, rfl, rfl, rfl, rfl⟩,
     ⟨{ s with registers := fun j =>
          if j = (s.opcode &&& 0x0F00) >>> 8 then
            s.registers ((s.opcode &&& 0x0F00) >>> 8) &&&
              s.registers ((s.opcode &&& 0x00F0) >>> 4)
          else s.registers j },
       ?_, ?_, ?_, rfl, rfl, rfl, rfl, rfl, rfl, rfl, rfl, rfl⟩,
     ⟨{ s with registers := fun j =>
          if j = (s.opcode &&& 0x0F00) >>> 8 then
            s.registers ((s.opcode &&& 0x0F00) >>> 8) ^^^
              s.registers ((s.opcode &&& 0x00F0) >>> 4)
          else s.registers j },
       ?_, ?_, ?_, rfl, rfl, rfl, rfl, rfl, rfl, rfl, rfl, rfl⟩⟩ <;>
    first
      | (intro j hj; simp [hj])
      | (simp [op_8xy1, op_8xy2, op_8xy3, arrGet, arrSet, hx, hy])

end Chip8Emu
